import Mathlib

set_option maxHeartbeats 1000000

/-!
Verification of the job-status orchestration core of the camera server
(src/camera_server_flask.py): the multi-source status merge
(`_read_job_status`), the QR background watcher (`_start_qr_watcher`),
the runner registry (`_load_registry`, `_register_runner`) and the
code-generation launcher (`run_claude`, `_run_claude_background`).

JSON documents are modelled by the inductive `Json` type and Python
dicts by association lists.  Object literals arriving from `json.load`
are assumed duplicate-free (Python deduplicates keys when parsing), but
no well-formedness invariant is required by the definitions.  Reads or
operations that raise inside a Python `try`/`except` handler are
modelled by `Option` results or by leaving the state unchanged,
mirroring what each handler does.  `dict.update` applied to a non-dict
value is modelled as raising (Python raises for every JSON value other
than a dict, except for the exotic list-of-pairs case, which no writer
of this system produces).
-/

/-- JSON values, as produced by `json.load`. -/
inductive Json where
  | null
  | bool (b : Bool)
  | num (n : Int)
  | str (s : String)
  | arr (elems : List Json)
  | obj (fields : List (String × Json))

/-- Python truthiness (`bool(v)`) of a JSON value. -/
def truthy : Json → Bool
  | .null => false
  | .bool b => b
  | .num n => n != 0
  | .str s => s ≠ ""
  | .arr l => !l.isEmpty
  | .obj l => !l.isEmpty

/-- Python `v == s` for a string literal `s`: true only for an equal string. -/
def isStrEq (v : Json) (s : String) : Bool :=
  match v with
  | .str t => t = s
  | _ => false

/-- Python `a or b`: the first operand when truthy, else the second. -/
def pyOr (a b : Json) : Json :=
  if truthy a then a else b

/-- Python `s.strip()`: drop leading and trailing whitespace.  (Defined
over the character list so it evaluates by kernel reduction.) -/
def pyStrip (s : String) : String :=
  (((s.toList.dropWhile Char.isWhitespace).reverse.dropWhile
    Char.isWhitespace).reverse).asString

/-- Python `s.lower()` (ASCII, as the slug regex only keeps ASCII). -/
def pyLower (s : String) : String :=
  (s.toList.map Char.toLower).asString

/-- `d.get(k)` on an association list, as `Option` (first match). -/
def dget : List (String × Json) → String → Option Json
  | [], _ => none
  | (k1, v) :: rest, k => if k1 = k then some v else dget rest k

/-- `d.get(k)` on an association list, with `None` (`Json.null`) for a missing key. -/
def jget (d : List (String × Json)) (k : String) : Json :=
  (dget d k).getD .null

/-- `d[k] = v`: replace the first binding of `k`, or append a new one. -/
def dset : List (String × Json) → String → Json → List (String × Json)
  | [], k, v => [(k, v)]
  | (k1, v1) :: rest, k, v =>
    if k1 = k then (k, v) :: rest else (k1, v1) :: dset rest k v

/-- `d.update(other)`: bind every key of `other` in `d`, in order. -/
def dupdate (d other : List (String × Json)) : List (String × Json) :=
  other.foldl (fun acc kv => dset acc kv.1 kv.2) d

/-- `d.setdefault(k, v)`: add a binding only when the key is missing. -/
def dsetdefault (d : List (String × Json)) (k : String) (v : Json) : List (String × Json) :=
  if (dget d k).isSome then d else d ++ [(k, v)]

/-- Value of the last binding of `k` in a list of pairs (the binding that
wins when the list is folded into a dict with `update`). -/
def dgetLast : List (String × Json) → String → Option Json
  | [], _ => none
  | (k1, v) :: rest, k =>
    match dgetLast rest k with
    | some w => some w
    | none => if k1 = k then some v else none

theorem dget_dset_self (d : List (String × Json)) (k : String) (v : Json) :
    dget (dset d k v) k = some v := by
  induction d with
  | nil => simp [dset, dget]
  | cons hd tl ih =>
    by_cases h : hd.1 = k
    · simp [dset, dget, h]
    · simp [dset, dget, h, ih]

theorem dget_dset_of_ne (d : List (String × Json)) (k1 k : String) (v : Json)
    (h : k1 ≠ k) : dget (dset d k1 v) k = dget d k := by
  induction d with
  | nil => simp [dset, dget, h]
  | cons hd tl ih =>
    by_cases h2 : hd.1 = k1
    · simp [dset, dget, h2, h]
    · simp [dset, dget, h2, ih]

theorem dget_dupdate (d other : List (String × Json)) (k : String) :
    dget (dupdate d other) k =
      match dgetLast other k with
      | some v => some v
      | none => dget d k := by
  induction other generalizing d with
  | nil => simp [dupdate, dgetLast]
  | cons hd tl ih =>
    show dget (dupdate (dset d hd.1 hd.2) tl) k = _
    rw [ih]
    by_cases h : hd.1 = k
    · subst h
      cases htl : dgetLast tl hd.1 with
      | some w => simp [dgetLast, htl]
      | none => simp [dgetLast, htl, dget_dset_self]
    · cases htl : dgetLast tl k with
      | some w => simp [dgetLast, htl]
      | none => simp [dgetLast, htl, h, dget_dset_of_ne _ _ _ _ h]

theorem isSome_dget_dupdate (d other : List (String × Json)) (k : String)
    (h : (dget d k).isSome) : (dget (dupdate d other) k).isSome := by
  rw [dget_dupdate]
  cases htl : dgetLast other k with
  | some w => simp
  | none => simpa using h

theorem dget_append_of_isSome (d e : List (String × Json)) (k : String)
    (h : (dget d k).isSome) : dget (d ++ e) k = dget d k := by
  induction d with
  | nil => simp [dget] at h
  | cons hd tl ih =>
    by_cases h1 : hd.1 = k
    · simp [dget, h1]
    · simp only [dget, h1, if_false, List.cons_append] at *
      exact ih h

theorem dget_dsetdefault_of_isSome (d : List (String × Json)) (k1 k : String) (v : Json)
    (h : (dget d k).isSome) : dget (dsetdefault d k1 v) k = dget d k := by
  unfold dsetdefault
  by_cases h1 : (dget d k1).isSome
  · simp [h1]
  · simp only [h1, if_false]
    exact dget_append_of_isSome d _ k h

theorem isSome_dget_dsetdefault_self (d : List (String × Json)) (k : String) (v : Json) :
    (dget (dsetdefault d k v) k).isSome := by
  unfold dsetdefault
  by_cases h : (dget d k).isSome
  · simp [h]
  · simp only [h, if_false]
    induction d with
    | nil => simp [dget]
    | cons hd tl ih =>
      by_cases h1 : hd.1 = k
      · simp [dget, h1]
      · simp only [dget, h1, if_false, List.cons_append] at *
        exact ih h

theorem dget_filter_imp (d : List (String × Json)) (f : String → Bool) (k : String) (v : Json)
    (h : dget (d.filter (fun kv => f kv.1)) k = some v) : f k = true := by
  induction d with
  | nil => simp [dget] at h
  | cons hd tl ih =>
    by_cases hf : f hd.1
    · rw [List.filter_cons_of_pos (by simpa using hf)] at h
      by_cases h1 : hd.1 = k
      · subst h1; exact hf
      · rw [dget, if_neg h1] at h
        exact ih h
    · rw [List.filter_cons_of_neg (by simpa using hf)] at h
      exact ih h

/-! ## Allow-lists (`_filter_result_fields`) and the runner registry -/

/-- Allow-listed `data` keys per mode (`_filter_result_fields`'s `allowed`
table, with `allowed.get(mode, set())` for any other — hashable — mode). -/
def allowedKeysJ : Json → List String
  | .str "qr" => ["expected_uuid", "uuid", "verified", "timestamp"]
  | .str "gesture" => ["confidence", "gesture", "verified", "timestamp"]
  | .str "object" => ["confidence", "object", "verified", "timestamp"]
  | _ => []

/-- A JSON value is hashable as a Python dict key (lists and dicts are not).
`allowed.get(mode)` and `mapping.get(mode)` raise `TypeError` on an
unhashable `mode`. -/
def hashableJ : Json → Bool
  | .arr _ => false
  | .obj _ => false
  | _ => true

/-- `_filter_result_fields(mode, data)` for a dict `data` and hashable
`mode`: keep only allow-listed bindings. -/
def filterKvs (mode : Json) (kvs : List (String × Json)) : List (String × Json) :=
  kvs.filter (fun kv => (allowedKeysJ mode).contains kv.1)

/-- The empty registry `{'gesture': {}, 'object': {}}`. -/
def defaultRegistry : List (String × Json) :=
  [("gesture", .obj []), ("object", .obj [])]

/-- `_load_registry()`.  The registry file is given as `none` when absent,
unreadable or unparsable (all land in the `except` handler) and as
`some j` when it parses to the JSON value `j`. -/
def loadRegistry : Option Json → List (String × Json)
  | none => defaultRegistry
  | some j =>
    match (if truthy j then j else .obj []) with
    | .obj kvs => dsetdefault (dsetdefault kvs "gesture" (.obj [])) "object" (.obj [])
    | _ => defaultRegistry

/-- ASCII alphanumeric, the `[^A-Za-z0-9]` character class of `_slugify`. -/
def isAlnumAscii (c : Char) : Bool := c.isAlpha || c.isDigit

/-- Collapse consecutive underscores (the `re.sub(r"_+", "_", s)` step;
the first substitution already maps each non-alphanumeric run to one
underscore, so this also realizes `re.sub(r"[^A-Za-z0-9]+", "_", _)`
when composed with a character-wise map). -/
def collapseUnderscores : List Char → List Char
  | [] => []
  | c :: rest =>
    if c = '_' then
      match rest with
      | '_' :: _ => collapseUnderscores rest
      | _ => c :: collapseUnderscores rest
    else c :: collapseUnderscores rest

/-- Python `s.strip("_")` on a character list. -/
def stripUnderscores (l : List Char) : List Char :=
  ((l.dropWhile (fun c => c = '_')).reverse.dropWhile (fun c => c = '_')).reverse

/-- `_slugify(name)`. -/
def slugify (name : String) : String :=
  let mapped := ((pyLower (pyStrip name)).toList).map
    (fun c => if isAlnumAscii c then c else '_')
  let s := (stripUnderscores (collapseUnderscores mapped)).asString
  if s = "" then "item" else s

/-- `shutil.copyfile(src, dst)` on the modelled script store: bind the
destination path to the source content. -/
def sset : List (String × String) → String → String → List (String × String)
  | [], k, v => [(k, v)]
  | (k1, v1) :: rest, k, v =>
    if k1 = k then (k, v) :: rest else (k1, v1) :: sset rest k v

/-- `reg.get(mode, {}).get(display_name)` — `some v` is the looked-up
value (`Json.null` for a missing name), `none` models the
`AttributeError` raised when `reg[mode]` is not a dict. -/
def regLookup (reg : List (String × Json)) (mode dn : String) : Option Json :=
  match dget reg mode with
  | none => some .null
  | some (.obj m) => some (jget m dn)
  | some _ => none

/-- `_register_runner(mode, display_name, source_script)`.  `scripts`
models the script files in the working directory (path to content);
the copy step is best-effort and precedes the registry write.  Returns
the target path (or `none` when a guard fails or the registry value for
`mode` is not a dict, in which case the item assignment raises before
`_save_registry` runs), the new registry-file state and the new script
store. -/
def registerRunner (regFile : Option Json) (scripts : List (String × String))
    (mode dn : String) (src : Option String) :
    Option String × Option Json × List (String × String) :=
  if mode ≠ "gesture" && mode ≠ "object" then (none, regFile, scripts)
  else if dn = "" then (none, regFile, scripts)
  else
    let reg := loadRegistry regFile
    let slug := slugify dn
    let sfx := if mode = "gesture" then "_gesture.py" else "_object.py"
    let target := slug ++ sfx
    let scripts2 :=
      match src with
      | some p =>
        match scripts.lookup p with
        | some content => if p ≠ target then sset scripts target content else scripts
        | none => scripts
      | none => scripts
    let reg1 := dsetdefault reg mode (.obj [])
    match dget reg1 mode with
    | some (.obj mkvs) =>
      let reg2 := dset reg1 mode (.obj (dset mkvs dn (.str target)))
      (some target, some (.obj reg2), scripts2)
    | _ => (none, regFile, scripts2)

/-- The guarded auto-registration attempt of `_read_job_status` (lines
with `reg = _load_registry(); already = ...; if not already: ...`):
look up `(mode, display_name)` and call `_register_runner` only when no
truthy entry exists.  A `regLookup` failure (registry value for `mode`
not a dict) aborts the enclosing `try` block with no write. -/
structure RegAttempt where
  regFile : Option Json
  scripts : List (String × String)
  target : Option String

def attemptRegister (regFile : Option Json) (scripts : List (String × String))
    (mode dn : String) (src : Option String) : RegAttempt :=
  let reg := loadRegistry regFile
  match regLookup reg mode dn with
  | none => ⟨regFile, scripts, none⟩
  | some already =>
    if truthy already then ⟨regFile, scripts, none⟩
    else
      let r := registerRunner regFile scripts mode dn src
      ⟨r.2.1, r.2.2, r.1⟩

/-! ## The status merge (`_read_job_status`) -/

/-- A file on disk: its parse result (`none` when opening or
`json.load` raises) and its modification time. -/
structure FileEntry where
  parse : Option Json
  mtime : Int

/-- The files the merge reads: the job directory `jobs/<job_id>/` and
the shared working directory.  A missing list entry models a missing
file (`os.path.exists` false). -/
structure Stores where
  job : List (String × FileEntry)
  cwd : List (String × FileEntry)

def getFile : List (String × FileEntry) → String → Option FileEntry
  | [], _ => none
  | (k1, e) :: rest, k => if k1 = k then some e else getFile rest k

/-- Stand-in for `datetime.utcfromtimestamp(t).isoformat() + "Z"`; the
formatting itself is opaque to every claim, only injectivity in `t`
matters, so the epoch value is rendered directly. -/
def isoOf (t : Int) : String := toString t ++ "Z"

/-- Overlay one status document: `status.update(json.load(f) or {})`
with every failure (missing file, unparsable content, `update` on a
non-dict) swallowed by the `except` handler. -/
def overlayDoc (status : List (String × Json)) (e : Option FileEntry) :
    List (String × Json) :=
  match e with
  | none => status
  | some f =>
    match f.parse with
    | none => status
    | some j =>
      match (if truthy j then j else .obj []) with
      | .obj kvs => dupdate status kvs
      | _ => status

/-- `status.get('mode') or request.args.get('mode') or 'qr'`. -/
def effMode (status : List (String × Json)) (hint : Option String) : Json :=
  pyOr (jget status "mode")
    (pyOr (match hint with | some s => .str s | none => .null) (.str "qr"))

/-- `_canonical_result_file(mode)` (`mapping.get(mode, 'output.json')`);
only called with a hashable `mode`. -/
def canonicalResultFile : Json → String
  | .str "qr" => "uuid.json"
  | .str "gesture" => "gesture_output.json"
  | .str "object" => "object_output.json"
  | _ => "output.json"

/-- Prefer the job-scoped result file, fall back to the working
directory (`os.path.exists` decides, before any parse). -/
def chooseResult (stores : Stores) (fname : String) : Option FileEntry :=
  match getFile stores.job fname with
  | some e => some e
  | none => getFile stores.cwd fname

/-- The canonical result document used by the merge step:
`json.load(f) or {}` of the chosen file, `none` when the mode is
unhashable (`mapping.get` raises), no file exists, or the parse raises. -/
def chosenResultDoc (status : List (String × Json)) (hint : Option String)
    (stores : Stores) : Option Json :=
  let mode := effMode status hint
  if hashableJ mode then
    match chooseResult stores (canonicalResultFile mode) with
    | some e =>
      match e.parse with
      | some j => some (if truthy j then j else .obj [])
      | none => none
    | none => none
  else none

/-- Merge step 5: `status.setdefault('data', {});
status['data'].update(_filter_result_fields(mode, r))` when the chosen
result document is a dict; `update` on a non-dict `data` raises and the
handler leaves the status unchanged. -/
def mergeResultStep (status : List (String × Json)) (hint : Option String)
    (stores : Stores) : List (String × Json) :=
  match chosenResultDoc status hint stores with
  | some (.obj rkvs) =>
    let filtered := filterKvs (effMode status hint) rkvs
    match dget status "data" with
    | none => dset status "data" (.obj filtered)
    | some (.obj kvs) => dset status "data" (.obj (dupdate kvs filtered))
    | some _ => status
  | _ => status

/-- `(ref.get('uuid') or '').strip()` for one parsed reference file,
with every failure (unreadable file, non-dict document, non-string
truthy `uuid`) turned into `''` by the enclosing handler. -/
def refUuidOf (parse : Option Json) : String :=
  match parse with
  | none => ""
  | some j =>
    match (if truthy j then j else .obj []) with
    | .obj kvs =>
      match dget kvs "uuid" with
      | some (.str s) => pyStrip s
      | _ => ""
    | _ => ""

/-- The reference UUID: job-scoped `reference_uuid.json` first, shared
working-directory copy as fallback, `''` when neither exists. -/
def readRefUuid (stores : Stores) : String :=
  match getFile stores.job "reference_uuid.json" with
  | some e => refUuidOf e.parse
  | none =>
    match getFile stores.cwd "reference_uuid.json" with
    | some e => refUuidOf e.parse
    | none => ""

/-- Merge step 6, the QR-specific fallback: when the effective mode is
`qr` and `data.uuid` is a non-empty string but `expected_uuid` or
`verified` is missing, read the reference value, backfill
`expected_uuid`, `verified` and (from the job-scoped result file's
mtime) `timestamp`, then re-filter `data` through the qr allow-list. -/
def qrFallbackStep (status : List (String × Json)) (hint : Option String)
    (stores : Stores) : List (String × Json) :=
  if isStrEq (effMode status hint) "qr" then
    match dget status "data" with
    | some (.obj data) =>
      let hasUuid := match dget data "uuid" with
        | some (.str s) => s ≠ ""
        | _ => false
      let needsE := (dget data "expected_uuid").isNone
      let needsV := (dget data "verified").isNone
      if hasUuid && (needsE || needsV) then
        let expected := readRefUuid stores
        let data1 := if needsE then dset data "expected_uuid" (.str expected) else data
        let data2 := if needsV then
            dset data1 "verified" (.bool (expected ≠ "" &&
              (match dget data1 "uuid" with
               | some (.str u) => expected = u
               | _ => false)))
          else data1
        let data3 := if (dget data2 "timestamp").isNone then
            match getFile stores.job "uuid.json" with
            | some e => dset data2 "timestamp" (.str (isoOf e.mtime))
            | none => data2
          else data2
        dset status "data" (.obj (filterKvs (.str "qr") data3))
      else status
    | _ => status
  else status

/-- Merge step 7: re-filter a dict-valued `data` through the effective
mode's allow-list; skipped (exception swallowed) when the mode is
unhashable. -/
def sanitizeStep (status : List (String × Json)) (hint : Option String) :
    List (String × Json) :=
  match dget status "data" with
  | some (.obj kvs) =>
    if hashableJ (effMode status hint) then
      dset status "data" (.obj (filterKvs (effMode status hint) kvs))
    else status
  | _ => status

/-- `(status.get('script') or '').strip() or None`: `some src` is the
computed value (`none` inside for `None`), outer `none` models the
`AttributeError` on a truthy non-string that aborts the whole block. -/
def scriptField : Json → Option (Option String)
  | .str s => some (if pyStrip s = "" then none else some (pyStrip s))
  | v => if truthy v then none else some none

/-- Merge step 8, auto-registration: when `data.verified` is truthy (or
the phase is `done` with non-empty `data`) and the mode is gesture or
object, register the display name if absent and attach the chosen
filename under `status['registry']`.  Any raise (non-dict `data`,
non-string script or display name, non-dict registry slot) aborts the
block, keeping whatever was already persisted. -/
def autoRegisterStep (status : List (String × Json)) (regFile : Option Json)
    (scripts : List (String × String)) :
    List (String × Json) × Option Json × List (String × String) :=
  let dataJ := pyOr (jget status "data") (.obj [])
  match dataJ with
  | .obj data =>
    let verified := truthy (jget data "verified") ||
      (isStrEq (jget status "phase") "done" && truthy dataJ)
    match scriptField (jget status "script") with
    | none => (status, regFile, scripts)
    | some src =>
      let modeJ := pyOr (jget status "mode") (.str "")
      if verified && (isStrEq modeJ "gesture" || isStrEq modeJ "object") then
        let mode := if isStrEq modeJ "gesture" then "gesture" else "object"
        let nameKey := if mode = "gesture" then "gesture" else "object"
        match dget data nameKey with
        | some (.str dn) =>
          if dn ≠ "" then
            let att := attemptRegister regFile scripts mode dn src
            match att.target with
            | some t =>
              let statusOut := match dget status "registry" with
                | none => dset status "registry" (.obj [(nameKey, .str t)])
                | some (.obj rkvs) =>
                  dset status "registry" (.obj (dset rkvs nameKey (.str t)))
                | some _ => status
              (statusOut, att.regFile, att.scripts)
            | none => (status, att.regFile, att.scripts)
          else (status, regFile, scripts)
        | _ => (status, regFile, scripts)
      else (status, regFile, scripts)
  | _ => (status, regFile, scripts)

/-- All inputs of one `_read_job_status` call: the job id, the clock
reading used for the seed `updated_at`, the request's `mode` query
parameter, the two file stores, the registry file and the script files. -/
structure MergeIn where
  jobId : String
  nowIso : String
  modeHint : Option String
  stores : Stores
  regFile : Option Json
  scripts : List (String × String)

/-- The merged status plus the registry side effects. -/
structure MergeOut where
  status : List (String × Json)
  regFile : Option Json
  scripts : List (String × String)

/-- `_read_job_status(job_id)`: seed, overlay `status.json` then
`script_status.json`, merge the canonical result file, apply the QR
fallback, sanitize `data`, then attempt auto-registration. -/
def readJobStatus (inp : MergeIn) : MergeOut :=
  let seed : List (String × Json) :=
    [("job_id", .str inp.jobId), ("phase", .str "queued"),
     ("updated_at", .str inp.nowIso)]
  let s1 := overlayDoc seed (getFile inp.stores.job "status.json")
  let s2 := overlayDoc s1 (getFile inp.stores.job "script_status.json")
  let s3 := mergeResultStep s2 inp.modeHint inp.stores
  let s4 := qrFallbackStep s3 inp.modeHint inp.stores
  let s5 := sanitizeStep s4 inp.modeHint
  let r := autoRegisterStep s5 inp.regFile inp.scripts
  ⟨r.1, r.2.1, r.2.2⟩

/-! ## The QR watcher (`_start_qr_watcher`) -/

/-- A candidate result file as one watcher iteration sees it: its
modification time, its size at the stability check's two reads (0.1s
apart) and its parse result. -/
structure ResultFile where
  mtime : Int
  size1 : Nat
  size2 : Nat
  parse : Option Json

/-- The filesystem snapshot one watcher iteration observes.  Outer
`Option` is existence (`os.path.exists`), inner `Option Json` the parse
result (`none` when `json.load` raises). -/
structure QrSnap where
  scriptStatus : Option (Option Json)
  resultJob : Option ResultFile
  resultCwd : Option ResultFile
  refJob : Option (Option Json)
  refCwd : Option (Option Json)
  statusFile : Option (Option Json)

/-- The `phase` field of `script_status.json` as the watcher reads it:
`some p` when the file exists, parses and is a dict (`p` is `Json.null`
for a missing key), `none` otherwise (the handler swallows the raise). -/
def scriptPhaseOf (ss : Option (Option Json)) : Option Json :=
  match ss with
  | some (some j) =>
    match (if truthy j then j else .obj []) with
    | .obj kvs => some (jget kvs "phase")
    | _ => none
  | _ => none

/-- Whether an optional JSON value is a given string (Python
`v in (...)` membership tests against string literals). -/
def optIsStr (v : Option Json) (s : String) : Bool :=
  match v with
  | some w => isStrEq w s
  | none => false

/-- The candidate result file: job-local `uuid.json` preferred, the
working-directory copy as fallback. -/
def candidateOf (snap : QrSnap) : Option ResultFile :=
  match snap.resultJob with
  | some r => some r
  | none => snap.resultCwd

/-- `detected = (out.get('uuid') or '').strip()` on the candidate:
`none` models any raise inside the iteration's `try` (unparsable file,
non-dict document, non-string truthy `uuid`), which makes the watcher
re-poll. -/
def detectedOf (rf : ResultFile) : Option String :=
  match rf.parse with
  | none => none
  | some j =>
    match (if truthy j then j else .obj []) with
    | .obj kvs =>
      match dget kvs "uuid" with
      | some (.str s) => some (pyStrip s)
      | some v => if truthy v then none else some ""
      | none => some ""
    | _ => none

/-- The reference UUID as the watcher reads it (job-scoped
`reference_uuid.json` first, then the working-directory copy;
its dedicated handler turns every failure into `''`). -/
def expectedOf (snap : QrSnap) : String :=
  match snap.refJob with
  | some pr => refUuidOf pr
  | none =>
    match snap.refCwd with
    | some pr => refUuidOf pr
    | none => ""

/-- Outcome of one pass of the watcher's polling loop. -/
inductive QrIterResult where
  | stop
  | finalized (written : Json)
  | repoll (published : Bool)

/-- The finalization tail of one watcher iteration, after a usable
candidate yielded `detected`: compute `expected` and `verified`, write
`{"phase": "detected", "mode": "qr"}` unless already published, re-read
the status document and write the final `done` status with the
allow-list-filtered payload.  A non-dict current status or non-dict
`data` slot raises, and the iteration re-polls. -/
def qrFinalize (snap : QrSnap) (pub : Bool) (c : ResultFile) (detected : String) :
    QrIterResult :=
  let expected := expectedOf snap
  let verified := expected ≠ "" && detected ≠ "" && expected = detected
  let pub2 := pub || optIsStr (scriptPhaseOf snap.scriptStatus) "done"
  let afterDetected : Option (Option Json) :=
    if pub2 then snap.statusFile
    else some (some (.obj [("phase", .str "detected"), ("mode", .str "qr")]))
  let curDoc : Json :=
    match afterDetected with
    | none => .obj []
    | some none => .obj []
    | some (some j) => if truthy j then j else .obj []
  match curDoc with
  | .obj cur =>
    let cur1 := dsetdefault (dset (dset cur "phase" (.str "done")) "mode" (.str "qr"))
      "data" (.obj [])
    let payload : List (String × Json) :=
      [("uuid", .str detected), ("expected_uuid", .str expected),
       ("verified", .bool verified), ("timestamp", .str (isoOf c.mtime))]
    match dget cur1 "data" with
    | some (.obj dkvs) =>
      .finalized (.obj (dset cur1 "data" (.obj (dupdate dkvs (filterKvs (.str "qr") payload)))))
    | _ => .repoll pub2
  | _ => .repoll pub2

/-- One pass of the watcher's polling loop: stop when the script
already finalized, otherwise examine the candidate result file
(existence, staleness against the watcher's start time, write
stability, parse) and either finalize or re-poll. -/
def qrIter (startTs : Int) (pub : Bool) (snap : QrSnap) : QrIterResult :=
  let sp := scriptPhaseOf snap.scriptStatus
  if optIsStr sp "done" || optIsStr sp "error" then .stop
  else
    let pub1 := pub || optIsStr sp "detected"
    match candidateOf snap with
    | none => .repoll pub1
    | some c =>
      if c.mtime < startTs then .repoll pub1
      else if c.size2 ≠ c.size1 then .repoll pub1
      else
        match detectedOf c with
        | none => .repoll pub1
        | some detected => qrFinalize snap pub1 c detected

/-- The timeout epilogue: re-read `status.json` and write the timeout
error only when the current phase is not already terminal; any raise
(unparsable or non-dict status) or an already-final phase produces no
write.  Returns the written document, if any. -/
def qrTimeoutStep (statusFile : Option (Option Json)) : Option Json :=
  match statusFile with
  | some none => none
  | _ =>
    let curDoc : Json :=
      match statusFile with
      | some (some j) => if truthy j then j else .obj []
      | _ => .obj []
    match curDoc with
    | .obj cur =>
      if isStrEq (jget cur "phase") "done" || isStrEq (jget cur "phase") "error" then none
      else some (.obj (dset (dset (dset cur "phase" (.str "error")) "mode" (.str "qr"))
        "message" (.str "Timeout waiting for uuid.json")))
    | _ => none

/-- Result of a whole watcher run. -/
inductive QrWatchResult where
  | scriptStopped
  | finalized (written : Json)
  | timedOut (errorWrite : Option Json)

/-- The watcher's polling loop over the (finite) sequence of snapshots
it observes before the deadline, followed by the timeout epilogue on
the status document found at the deadline. -/
def qrWatch (startTs : Int) (pub : Bool) (snaps : List QrSnap)
    (statusAtDeadline : Option (Option Json)) : QrWatchResult :=
  match snaps with
  | [] => .timedOut (qrTimeoutStep statusAtDeadline)
  | snap :: rest =>
    match qrIter startTs pub snap with
    | .stop => .scriptStopped
    | .finalized w => .finalized w
    | .repoll p => qrWatch startTs p rest statusAtDeadline

/-- True exactly on the `finalized` outcome. -/
def QrWatchResult.isFinalized : QrWatchResult → Bool
  | .finalized _ => true
  | _ => false

/-! ## The code-generation launcher (`run_claude`, `_run_claude_background`) -/

/-- Outcome of the `subprocess.run` call on the collaborator CLI:
`ok stdout parsed` on exit code 0 (`parsed` standing for
`json.loads(stdout)`, `none` when that raises), `fail stderr` for the
`CalledProcessError` raised by `check=True` on a non-zero exit. -/
inductive ProcResult where
  | ok (stdout : String) (parsed : Option Json)
  | fail (stderr : String)

/-- The environment one `run_claude` call observes: whether
`shutil.which("claude")` found the executable, and the process result. -/
structure ClaudeEnv where
  exeFound : Bool
  result : ProcResult

/-- `(parsed.get(k1) or {}).get(k2)`: `none` models the
`AttributeError` on a truthy non-dict, which makes the enclosing
handler fall back to `sid = None`. -/
def pyGetIn (kvs : List (String × Json)) (k1 k2 : String) : Option Json :=
  match pyOr (jget kvs k1) (.obj []) with
  | .obj m => some (jget m k2)
  | _ => none

/-- The best-effort session-id extraction from the collaborator's JSON
stdout: `session_id`, else `meta.session_id`, else `data.session_id`,
else `output.session_id`; `Json.null` when the parse failed, the
document is not a dict, or the chain raised. -/
def extractSid (parsed : Option Json) : Json :=
  match parsed with
  | some (.obj kvs) =>
    let s0 := jget kvs "session_id"
    if truthy s0 then s0
    else match pyGetIn kvs "meta" "session_id" with
    | none => .null
    | some s1 =>
      if truthy s1 then s1
      else match pyGetIn kvs "data" "session_id" with
      | none => .null
      | some s2 =>
        if truthy s2 then s2
        else match pyGetIn kvs "output" "session_id" with
        | none => .null
        | some s3 => s3
  | _ => .null

/-- `run_claude(prompt, ...)`: returns the transcript text and the
session id; a missing executable or a non-zero exit yields an
`Error:`-prefixed transcript and no session id, never a raise. -/
def runClaude (env : ClaudeEnv) : String × Json :=
  if !env.exeFound then
    ("Error: Claude CLI not found. Please install the claude CLI or adjust configuration.",
      .null)
  else
    match env.result with
    | .fail stderr => ("Error: " ++ stderr, .null)
    | .ok stdout parsed => (stdout, extractSid parsed)

/-- Outcome of `subprocess.Popen` on the generated script. -/
inductive LaunchResult where
  | ok (pid : Int)
  | fail (msg : String)

/-- `sid or session_id`: the extracted session id when truthy, else the
caller-provided one. -/
def sidOr (sid : Json) (sessionId : Option String) : Json :=
  if truthy sid then sid
  else match sessionId with
  | some s => .str s
  | none => .null

/-- The status document `_run_claude_background` finally writes: it
always proceeds past the generation step (whatever `run_claude`
returned) to launch the script, recording `running` on success and a
launch error otherwise. -/
def runClaudeBackground (env : ClaudeEnv) (sessionId : Option String)
    (mode script : String) (launch : LaunchResult) : Json :=
  let gen := runClaude env
  match launch with
  | .ok pid =>
    .obj [("phase", .str "running"), ("session_id", sidOr gen.2 sessionId),
          ("pid", .num pid), ("script", .str script), ("mode", .str mode)]
  | .fail msg =>
    .obj [("phase", .str "error"), ("message", .str ("Failed to start script: " ++ msg))]

/-! ## Accessors used by the theorem statements -/

/-- The `k` entry of the merged status's dict-valued `data` map. -/
def getDataJ (st : List (String × Json)) (k : String) : Option Json :=
  match dget st "data" with
  | some (.obj kvs) => dget kvs k
  | _ => none

/-- The `k` entry of the `data` map of a written status document. -/
def jdataField (w : Json) (k : String) : Option Json :=
  match w with
  | .obj st => getDataJ st k
  | _ => none

/-- A top-level field of a written status document. -/
def jfield (w : Json) (k : String) : Option Json :=
  match w with
  | .obj st => dget st k
  | _ => none

/-- The binding a document contributes for key `k` when overlaid with
`update` (its last binding, `none` when the file is missing, unparsable
or not a dict). -/
def docField (e : Option FileEntry) (k : String) : Option Json :=
  match e with
  | some f =>
    match f.parse with
    | some j =>
      match (if truthy j then j else .obj []) with
      | .obj kvs => dgetLast kvs k
      | _ => none
    | none => none
  | none => none

/-- The current status document as the watcher's timeout epilogue reads
it: `some cur` when the read yields a dict (or the file is missing),
`none` when the read or the subsequent dict access raises. -/
def timeoutCurOf (statusFile : Option (Option Json)) : Option (List (String × Json)) :=
  match statusFile with
  | some none => none
  | some (some j) =>
    match (if truthy j then j else .obj []) with
    | .obj kvs => some kvs
    | _ => none
  | none => some []

theorem mem_of_contains (l : List String) (a : String) (h : l.contains a = true) :
    a ∈ l := by
  simpa using h

/-! ## C10: totality and shape of `_load_registry` -/

theorem keys_of_normalized (kvs : List (String × Json)) :
    (dget (dsetdefault (dsetdefault kvs "gesture" (.obj [])) "object" (.obj [])) "gesture").isSome ∧
    (dget (dsetdefault (dsetdefault kvs "gesture" (.obj [])) "object" (.obj [])) "object").isSome := by
  constructor
  · have h1 := isSome_dget_dsetdefault_self kvs "gesture" (.obj [])
    rw [dget_dsetdefault_of_isSome _ _ _ _ h1]
    exact h1
  · exact isSome_dget_dsetdefault_self _ "object" (.obj [])

theorem loadRegistry_some_eq (j : Json) :
    loadRegistry (some j) =
      match (if truthy j then j else .obj []) with
      | .obj kvs => dsetdefault (dsetdefault kvs "gesture" (.obj [])) "object" (.obj [])
      | _ => defaultRegistry := rfl

theorem loadRegistry_shape (f : Option Json) :
    ∃ kvs, loadRegistry f =
      dsetdefault (dsetdefault kvs "gesture" (.obj [])) "object" (.obj []) := by
  cases f with
  | none => exact ⟨[], rfl⟩
  | some j =>
    rw [loadRegistry_some_eq]
    split
    · next kvs _ => exact ⟨kvs, rfl⟩
    · next => exact ⟨[], rfl⟩

/-- C10 (confirmed): loading the registry is total and shape-normalizing —
for every state of the registry file the result is a dict containing
both the `gesture` and the `object` key, and an absent, unreadable,
malformed or non-object file yields the empty registry
`{'gesture': {}, 'object': {}}`. -/
theorem c10_load_registry_total (f : Option Json) :
    (dget (loadRegistry f) "gesture").isSome ∧
    (dget (loadRegistry f) "object").isSome ∧
    (f = none → loadRegistry f = defaultRegistry) ∧
    (∀ j, f = some j → (∀ kvs, j ≠ Json.obj kvs) → loadRegistry f = defaultRegistry) := by
  obtain ⟨kvs, hshape⟩ := loadRegistry_shape f
  refine ⟨hshape ▸ (keys_of_normalized kvs).1, hshape ▸ (keys_of_normalized kvs).2, ?_, ?_⟩
  · rintro rfl
    rfl
  · rintro j rfl hno
    rw [loadRegistry_some_eq]
    split
    · next kvs2 heq =>
      by_cases ht : truthy j
      · rw [if_pos ht] at heq
        exact absurd heq (hno kvs2)
      · rw [if_neg ht] at heq
        injection heq with h2
        rw [← h2]
        rfl
    · next => rfl

/-- C10 witness: the theorem applied to an absent registry file. -/
theorem c10_load_registry_total_witness :
    (dget (loadRegistry none) "gesture").isSome ∧ loadRegistry none = defaultRegistry := by
  have h := c10_load_registry_total none
  exact ⟨h.1, h.2.2.1 rfl⟩

/-! ## C9: generation failure is captured, not thrown -/

/-- C9 (confirmed): a missing collaborator executable or a non-zero exit
yields a transcript prefixed `Error:` with no continuation token, and
the background task still proceeds to the launch step (a successful
launch records phase `running` regardless of the generation outcome). -/
theorem c9_generation_failure (env : ClaudeEnv)
    (h : env.exeFound = false ∨ ∃ s, env.result = ProcResult.fail s) :
    (∃ rest, (runClaude env).1 = "Error:" ++ rest) ∧
    (runClaude env).2 = Json.null ∧
    (∀ sid mode script pid,
      jfield (runClaudeBackground env sid mode script (.ok pid)) "phase" =
        some (.str "running")) := by
  have hmain : (∃ rest, (runClaude env).1 = "Error:" ++ rest) ∧
      (runClaude env).2 = Json.null := by
    cases hx : env.exeFound with
    | false =>
      have hrc : runClaude env =
          ("Error: Claude CLI not found. Please install the claude CLI or adjust configuration.",
            Json.null) := by
        unfold runClaude
        rw [hx]
        rfl
      rw [hrc]
      exact ⟨⟨" Claude CLI not found. Please install the claude CLI or adjust configuration.",
        rfl⟩, rfl⟩
    | true =>
      rcases h with h1 | ⟨s, h1⟩
      · rw [hx] at h1
        exact absurd h1 (by simp)
      · have hrc : runClaude env = ("Error: " ++ s, Json.null) := by
          unfold runClaude
          rw [hx, h1]
          rfl
        rw [hrc]
        refine ⟨⟨" " ++ s, ?_⟩, rfl⟩
        rw [← String.append_assoc]
        rfl
  refine ⟨hmain.1, hmain.2, ?_⟩
  intro sid mode script pid
  rfl

/-- C9 witness: a concrete environment with the executable missing. -/
theorem c9_generation_failure_witness :
    (∃ rest, (runClaude ⟨false, .ok "" none⟩).1 = "Error:" ++ rest) ∧
    (runClaude ⟨false, .ok "" none⟩).2 = Json.null := by
  have h := c9_generation_failure ⟨false, .ok "" none⟩ (Or.inl rfl)
  exact ⟨h.1, h.2.1⟩

/-! ## C8: the timeout write never clobbers a finalized status -/

/-- C8 (confirmed): on timeout the watcher re-reads the status document;
when its phase is already `done` or `error` it writes nothing, and
otherwise it writes the error status carrying the timeout message. -/
theorem c8_timeout_no_clobber (st : Option (Option Json)) (cur : List (String × Json))
    (hcur : timeoutCurOf st = some cur) :
    ((isStrEq (jget cur "phase") "done" || isStrEq (jget cur "phase") "error") = true →
      qrTimeoutStep st = none) ∧
    ((isStrEq (jget cur "phase") "done" || isStrEq (jget cur "phase") "error") = false →
      qrTimeoutStep st =
        some (.obj (dset (dset (dset cur "phase" (.str "error")) "mode" (.str "qr"))
          "message" (.str "Timeout waiting for uuid.json")))) := by
  constructor
  · intro hph
    cases st with
    | none =>
      simp only [timeoutCurOf, Option.some.injEq] at hcur
      subst hcur
      simp [qrTimeoutStep, hph]
    | some p =>
      cases p with
      | none => simp [timeoutCurOf] at hcur
      | some j =>
        simp only [timeoutCurOf] at hcur
        unfold qrTimeoutStep
        cases hj : (if truthy j then j else .obj []) with
        | obj kvs =>
          rw [hj] at hcur
          simp only [Option.some.injEq] at hcur
          subst hcur
          simp [hj, hph]
        | null => rw [hj] at hcur; simp at hcur
        | bool b => rw [hj] at hcur; simp at hcur
        | num n => rw [hj] at hcur; simp at hcur
        | str s2 => rw [hj] at hcur; simp at hcur
        | arr l => rw [hj] at hcur; simp at hcur
  · intro hph
    cases st with
    | none =>
      simp only [timeoutCurOf, Option.some.injEq] at hcur
      subst hcur
      simp [qrTimeoutStep, hph]
    | some p =>
      cases p with
      | none => simp [timeoutCurOf] at hcur
      | some j =>
        simp only [timeoutCurOf] at hcur
        unfold qrTimeoutStep
        cases hj : (if truthy j then j else .obj []) with
        | obj kvs =>
          rw [hj] at hcur
          simp only [Option.some.injEq] at hcur
          subst hcur
          simp [hj, hph]
        | null => rw [hj] at hcur; simp at hcur
        | bool b => rw [hj] at hcur; simp at hcur
        | num n => rw [hj] at hcur; simp at hcur
        | str s2 => rw [hj] at hcur; simp at hcur
        | arr l => rw [hj] at hcur; simp at hcur

/-- C8 witness: a non-final `running` status receives the timeout error
write. -/
theorem c8_timeout_no_clobber_witness :
    qrTimeoutStep (some (some (.obj [("phase", .str "running")]))) =
      some (.obj [("phase", .str "error"), ("mode", .str "qr"),
        ("message", .str "Timeout waiting for uuid.json")]) := by
  have h := (c8_timeout_no_clobber (some (some (.obj [("phase", .str "running")])))
    [("phase", .str "running")] rfl).2 rfl
  exact h

/-! ## Preservation lemmas for the merge pipeline -/

theorem isSome_dget_dset (d : List (String × Json)) (k2 k : String) (v : Json)
    (h : (dget d k).isSome) : (dget (dset d k2 v) k).isSome := by
  by_cases he : k2 = k
  · subst he
    simp [dget_dset_self]
  · rw [dget_dset_of_ne _ _ _ _ he]
    exact h

theorem dget_mergeResultStep_ne (status : List (String × Json)) (hint : Option String)
    (stores : Stores) (k : String) (hk : k ≠ "data") :
    dget (mergeResultStep status hint stores) k = dget status k := by
  simp only [mergeResultStep]
  repeat' split
  all_goals first
    | rfl
    | exact dget_dset_of_ne _ _ _ _ (Ne.symm hk)

theorem dget_qrFallbackStep_ne (status : List (String × Json)) (hint : Option String)
    (stores : Stores) (k : String) (hk : k ≠ "data") :
    dget (qrFallbackStep status hint stores) k = dget status k := by
  simp only [qrFallbackStep]
  repeat' split
  all_goals first
    | rfl
    | exact dget_dset_of_ne _ _ _ _ (Ne.symm hk)

theorem dget_sanitizeStep_ne (status : List (String × Json)) (hint : Option String)
    (k : String) (hk : k ≠ "data") :
    dget (sanitizeStep status hint) k = dget status k := by
  simp only [sanitizeStep]
  repeat' split
  all_goals first
    | rfl
    | exact dget_dset_of_ne _ _ _ _ (Ne.symm hk)

theorem dget_autoRegisterStep_ne (status : List (String × Json)) (rf : Option Json)
    (sc : List (String × String)) (k : String) (hk : k ≠ "registry") :
    dget (autoRegisterStep status rf sc).1 k = dget status k := by
  simp only [autoRegisterStep]
  repeat' split
  all_goals first
    | rfl
    | exact dget_dset_of_ne _ _ _ _ (Ne.symm hk)

theorem isSome_dget_overlayDoc (st : List (String × Json)) (e : Option FileEntry)
    (k : String) (h : (dget st k).isSome) : (dget (overlayDoc st e) k).isSome := by
  simp only [overlayDoc]
  repeat' split
  all_goals first
    | exact h
    | exact isSome_dget_dupdate _ _ _ h

theorem readJobStatus_status_eq (inp : MergeIn) :
    (readJobStatus inp).status =
      (autoRegisterStep
        (sanitizeStep
          (qrFallbackStep
            (mergeResultStep
              (overlayDoc
                (overlayDoc
                  [("job_id", .str inp.jobId), ("phase", .str "queued"),
                   ("updated_at", .str inp.nowIso)]
                  (getFile inp.stores.job "status.json"))
                (getFile inp.stores.job "script_status.json"))
              inp.modeHint inp.stores)
            inp.modeHint inp.stores)
          inp.modeHint)
        inp.regFile inp.scripts).1 := rfl

theorem chosenResultDoc_empty (status : List (String × Json)) (hint : Option String) :
    chosenResultDoc status hint ⟨[], []⟩ = none := by
  simp only [chosenResultDoc]
  split
  · rfl
  · rfl

theorem mergeResultStep_empty (status : List (String × Json)) (hint : Option String) :
    mergeResultStep status hint ⟨[], []⟩ = status := by
  unfold mergeResultStep
  rw [chosenResultDoc_empty]

theorem qrFallbackStep_no_data (status : List (String × Json)) (hint : Option String)
    (stores : Stores) (h : dget status "data" = none) :
    qrFallbackStep status hint stores = status := by
  unfold qrFallbackStep
  split
  · rw [h]
  · rfl

theorem sanitizeStep_no_data (status : List (String × Json)) (hint : Option String)
    (h : dget status "data" = none) : sanitizeStep status hint = status := by
  unfold sanitizeStep
  rw [h]

/-! ## C3: shape of the merged document -/

/-- A poll input with no documents at all. -/
def emptyMergeIn : MergeIn :=
  { jobId := "job-3", nowIso := "2025-01-01T00:00:00Z", modeHint := none,
    stores := { job := [], cwd := [] }, regFile := none, scripts := [] }

/-- C3 (counterexample): a poll before any document exists returns phase
`queued`, but the returned document carries no `mode` key and no `data`
key at all, so the merge does not return a fully-typed document with a
mode and a data map. -/
theorem c3_counterexample :
    dget (readJobStatus emptyMergeIn).status "phase" = some (.str "queued") ∧
    dget (readJobStatus emptyMergeIn).status "mode" = none ∧
    dget (readJobStatus emptyMergeIn).status "data" = none :=
  ⟨rfl, rfl, rfl⟩

/-- C3 (amended): for every job id and filesystem state the merge never
raises and always returns a document with a `phase` key (seeded
`queued`); but the `mode` and `data` keys are only present when some
source document supplies them — before any document exists the result
has phase `queued` and neither a `mode` nor a `data` key. -/
theorem c3_amended (inp : MergeIn) :
    (dget (readJobStatus inp).status "phase").isSome ∧
    (inp.stores.job = [] → inp.stores.cwd = [] →
      dget (readJobStatus inp).status "phase" = some (.str "queued") ∧
      dget (readJobStatus inp).status "mode" = none ∧
      dget (readJobStatus inp).status "data" = none) := by
  constructor
  · rw [readJobStatus_status_eq,
      dget_autoRegisterStep_ne _ _ _ _ (by decide),
      dget_sanitizeStep_ne _ _ _ (by decide),
      dget_qrFallbackStep_ne _ _ _ _ (by decide),
      dget_mergeResultStep_ne _ _ _ _ (by decide)]
    exact isSome_dget_overlayDoc _ _ _ (isSome_dget_overlayDoc _ _ _ rfl)
  · intro hj hc
    rcases inp with ⟨jid, niso, hint, ⟨sjob, scwd⟩, rf, sc⟩
    have hj2 : sjob = [] := hj
    have hc2 : scwd = [] := hc
    subst hj2
    subst hc2
    have hs : (readJobStatus ⟨jid, niso, hint, ⟨[], []⟩, rf, sc⟩).status =
        [("job_id", Json.str jid), ("phase", Json.str "queued"),
         ("updated_at", Json.str niso)] := by
      rw [readJobStatus_status_eq]
      show (autoRegisterStep
        (sanitizeStep
          (qrFallbackStep
            (mergeResultStep
              [("job_id", Json.str jid), ("phase", Json.str "queued"),
               ("updated_at", Json.str niso)] hint ⟨[], []⟩)
            hint ⟨[], []⟩)
          hint) rf sc).1 = _
      rw [mergeResultStep_empty]
      rw [qrFallbackStep_no_data
        [("job_id", Json.str jid), ("phase", Json.str "queued"),
         ("updated_at", Json.str niso)] hint ⟨[], []⟩ rfl]
      rw [sanitizeStep_no_data
        [("job_id", Json.str jid), ("phase", Json.str "queued"),
         ("updated_at", Json.str niso)] hint rfl]
      rfl
    rw [hs]
    exact ⟨rfl, rfl, rfl⟩

/-- C3 witness: the amended theorem applied to the empty filesystem. -/
theorem c3_amended_witness :
    (dget (readJobStatus emptyMergeIn).status "phase").isSome ∧
    dget (readJobStatus emptyMergeIn).status "mode" = none := by
  have h := c3_amended emptyMergeIn
  exact ⟨h.1, (h.2 rfl rfl).2.1⟩

/-! ## C4: allow-list enforcement -/

theorem effMode_congr (s1 s2 : List (String × Json)) (hint : Option String)
    (h : dget s1 "mode" = dget s2 "mode") : effMode s1 hint = effMode s2 hint := by
  unfold effMode jget
  rw [h]

theorem sanitize_then_register_allowlist (s4 : List (String × Json)) (hint : Option String)
    (rf : Option Json) (sc : List (String × String))
    (kvs : List (String × Json)) (k : String) (v : Json)
    (hm : hashableJ (effMode (autoRegisterStep (sanitizeStep s4 hint) rf sc).1 hint) = true)
    (hdata : dget (autoRegisterStep (sanitizeStep s4 hint) rf sc).1 "data" = some (.obj kvs))
    (hk : dget kvs k = some v) :
    k ∈ allowedKeysJ (effMode (autoRegisterStep (sanitizeStep s4 hint) rf sc).1 hint) := by
  have hdata5 : dget (sanitizeStep s4 hint) "data" = some (.obj kvs) := by
    rw [← dget_autoRegisterStep_ne (sanitizeStep s4 hint) rf sc "data" (by decide)]
    exact hdata
  have hmode5 : effMode (autoRegisterStep (sanitizeStep s4 hint) rf sc).1 hint =
      effMode (sanitizeStep s4 hint) hint :=
    effMode_congr _ _ hint (dget_autoRegisterStep_ne _ _ _ "mode" (by decide))
  rw [hmode5] at hm ⊢
  cases hd4 : dget s4 "data" with
  | none =>
    rw [sanitizeStep_no_data _ _ hd4, hd4] at hdata5
    exact absurd hdata5 (by simp)
  | some d =>
    cases d with
    | obj kvs0 =>
      by_cases hh : hashableJ (effMode s4 hint) = true
      · have hsan : sanitizeStep s4 hint =
            dset s4 "data" (.obj (filterKvs (effMode s4 hint) kvs0)) := by
          unfold sanitizeStep
          rw [hd4]
          simp [hh]
        have hmode4 : effMode (sanitizeStep s4 hint) hint = effMode s4 hint := by
          rw [hsan]
          exact effMode_congr _ _ hint (dget_dset_of_ne _ _ _ _ (by decide))
        rw [hsan, dget_dset_self] at hdata5
        injection hdata5 with hd5
        injection hd5 with hd6
        rw [hmode4]
        refine mem_of_contains _ _ ?_
        have hk2 : dget (filterKvs (effMode s4 hint) kvs0) k = some v := by
          rw [hd6]
          exact hk
        exact dget_filter_imp kvs0
          (fun x => (allowedKeysJ (effMode s4 hint)).contains x) k v hk2
      · have hsan : sanitizeStep s4 hint = s4 := by
          unfold sanitizeStep
          rw [hd4]
          simp [hh]
        rw [hsan] at hm
        exact absurd hm hh
    | null =>
      have hsan : sanitizeStep s4 hint = s4 := by
        unfold sanitizeStep
        rw [hd4]
      rw [hsan, hd4] at hdata5
      exact absurd hdata5 (by simp)
    | bool b =>
      have hsan : sanitizeStep s4 hint = s4 := by
        unfold sanitizeStep
        rw [hd4]
      rw [hsan, hd4] at hdata5
      exact absurd hdata5 (by simp)
    | num n =>
      have hsan : sanitizeStep s4 hint = s4 := by
        unfold sanitizeStep
        rw [hd4]
      rw [hsan, hd4] at hdata5
      exact absurd hdata5 (by simp)
    | str s =>
      have hsan : sanitizeStep s4 hint = s4 := by
        unfold sanitizeStep
        rw [hd4]
      rw [hsan, hd4] at hdata5
      exact absurd hdata5 (by simp)
    | arr l =>
      have hsan : sanitizeStep s4 hint = s4 := by
        unfold sanitizeStep
        rw [hd4]
      rw [hsan, hd4] at hdata5
      exact absurd hdata5 (by simp)

/-- A script status document reporting an unhashable `mode` (a JSON
object) together with a disallowed `data` key. -/
def c4Doc : Json :=
  .obj [("mode", .obj [("x", .num 1)]), ("data", .obj [("evil", .num 1)])]

/-- A poll observing only `c4Doc` as the script status document. -/
def c4MergeIn : MergeIn :=
  { jobId := "job-4", nowIso := "2025-01-01T00:00:00Z", modeHint := none,
    stores :=
      { job := [("script_status.json", { parse := some c4Doc, mtime := 0 })],
        cwd := [] },
    regFile := none, scripts := [] }

/-- C4 (counterexample): a script status document whose `mode` field is a
JSON object makes every filter step raise and be skipped, so the key
`evil`, which belongs to no mode's allow-list, survives into the merged
`data` map. -/
theorem c4_counterexample :
    getDataJ (readJobStatus c4MergeIn).status "evil" = some (.num 1) ∧
    (allowedKeysJ (.str "qr")).contains "evil" = false ∧
    (allowedKeysJ (.str "gesture")).contains "evil" = false ∧
    (allowedKeysJ (.str "object")).contains "evil" = false :=
  ⟨rfl, rfl, rfl, rfl⟩

/-- C4 (amended): whenever the effective mode of the merged status is a
hashable value (in particular whenever the documents report `mode` as a
string or omit it), every key of the merged `data` map belongs to that
mode's allow-list, regardless of the contents of the status, script
status and result documents. -/
theorem c4_amended (inp : MergeIn) (kvs : List (String × Json)) (k : String) (v : Json)
    (hm : hashableJ (effMode (readJobStatus inp).status inp.modeHint) = true)
    (hdata : dget (readJobStatus inp).status "data" = some (.obj kvs))
    (hk : dget kvs k = some v) :
    k ∈ allowedKeysJ (effMode (readJobStatus inp).status inp.modeHint) := by
  rw [readJobStatus_status_eq] at hm hdata ⊢
  exact sanitize_then_register_allowlist _ inp.modeHint inp.regFile inp.scripts
    kvs k v hm hdata hk

/-- A gesture status document whose data carries an extra key. -/
def c4WitnessDoc : Json :=
  .obj [("mode", .str "gesture"),
    ("data", .obj [("gesture", .str "hi"), ("junk", .num 1)])]

/-- A gesture poll whose reported data carries an extra key. -/
def c4WitnessIn : MergeIn :=
  { jobId := "job-4w", nowIso := "2025-01-01T00:00:00Z", modeHint := none,
    stores :=
      { job := [("status.json", { parse := some c4WitnessDoc, mtime := 0 })],
        cwd := [] },
    regFile := none, scripts := [] }

/-- C4 witness: the amended theorem applied to a gesture job whose
surviving data key `gesture` is allow-listed. -/
theorem c4_amended_witness :
    "gesture" ∈ allowedKeysJ (effMode (readJobStatus c4WitnessIn).status c4WitnessIn.modeHint) :=
  c4_amended c4WitnessIn [("gesture", .str "hi")] "gesture" (.str "hi") rfl rfl rfl

/-! ## C1: how the canonical result document is merged into `data` -/

/-- A status document reporting `data.uuid = "aaa"` for a qr job. -/
def c1StatusDoc : Json :=
  .obj [("mode", .str "qr"), ("phase", .str "running"),
    ("data", .obj [("uuid", .str "aaa")])]

/-- A canonical result file reporting `uuid = "bbb"`. -/
def c1ResultDoc : Json :=
  .obj [("uuid", .str "bbb")]

/-- A poll where the orchestrator status and the canonical result file
disagree on `uuid`. -/
def c1MergeIn : MergeIn :=
  { jobId := "job-1", nowIso := "2025-01-01T00:00:00Z", modeHint := none,
    stores :=
      { job := [("status.json", { parse := some c1StatusDoc, mtime := 0 }),
                ("uuid.json", { parse := some c1ResultDoc, mtime := 7 })],
        cwd := [] },
    regFile := none, scripts := [] }

/-- C1 (counterexample): with the status document reporting
`data.uuid = "aaa"` and the canonical result file reporting
`uuid = "bbb"`, the merged status returns `"bbb"` — the canonical file
overwrites the already-present key instead of being merged only for
missing keys. -/
theorem c1_counterexample :
    getDataJ (readJobStatus c1MergeIn).status "uuid" = some (.str "bbb") ∧
    "bbb" ≠ "aaa" :=
  ⟨rfl, by decide⟩

/-- C1 (amended): when a canonical Result Document is found (job-scoped
path preferred, shared-working-directory path as fallback), its fields
are filtered through the effective mode's allow-list and merged into
the `data` map with dict-update semantics: for every key the filtered
result document binds, the value written by the merge step is the
result document's value, overwriting any value the orchestrator or
script status documents had reported for that key (before the
qr-specific reconciliation of step 6). -/
theorem c1_amended (status : List (String × Json)) (hint : Option String)
    (stores : Stores) (kvs rkvs : List (String × Json)) (k : String) (v : Json)
    (hres : chosenResultDoc status hint stores = some (.obj rkvs))
    (hdata : dget status "data" = some (.obj kvs))
    (hk : dgetLast (filterKvs (effMode status hint) rkvs) k = some v) :
    getDataJ (mergeResultStep status hint stores) k = some v := by
  unfold mergeResultStep
  rw [hres, hdata]
  unfold getDataJ
  rw [dget_dset_self]
  show dget (dupdate kvs (filterKvs (effMode status hint) rkvs)) k = some v
  rw [dget_dupdate, hk]

/-- C1 witness: the amended theorem at the counterexample's documents —
the result file's `"bbb"` is what the merge step stores under `uuid`. -/
theorem c1_amended_witness :
    getDataJ
      (mergeResultStep [("mode", .str "qr"), ("data", .obj [("uuid", .str "aaa")])]
        none c1MergeIn.stores)
      "uuid" = some (.str "bbb") := by
  exact c1_amended [("mode", .str "qr"), ("data", .obj [("uuid", .str "aaa")])]
    none c1MergeIn.stores [("uuid", .str "aaa")] [("uuid", .str "bbb")]
    "uuid" (.str "bbb") rfl rfl rfl

/-! ## C7: phase ordering across polls -/

/-- Position of a phase in the forward lifecycle sequence
queued → generating → running → detected → done. -/
def phaseIdx : String → Option Nat
  | "queued" => some 0
  | "generating" => some 1
  | "running" => some 2
  | "detected" => some 3
  | "done" => some 4
  | _ => none

/-- Whether observing phase `p` and then phase `q` on successive polls
is allowed by the claimed ordering: equal, a forward move through the
sequence, or a move into the terminal `error` state. -/
def phaseStepOk (p q : String) : Bool :=
  (p = q) || (q = "error") ||
    (match phaseIdx p, phaseIdx q with
     | some i, some j => i ≤ j
     | _, _ => false)

/-- The error status the watcher's timeout epilogue writes over a
`running` job. -/
def c7ErrDoc : Json :=
  .obj [("phase", .str "error"), ("mode", .str "qr"),
    ("message", .str "Timeout waiting for uuid.json")]

/-- A script status document written by a script that finishes late. -/
def c7ScriptDoc : Json :=
  .obj [("phase", .str "done"), ("verified", .bool true)]

/-- The poll after the watcher's timeout write. -/
def c7InA : MergeIn :=
  { jobId := "job-7", nowIso := "2025-01-01T00:00:30Z", modeHint := none,
    stores :=
      { job := [("status.json", { parse := some c7ErrDoc, mtime := 30 })],
        cwd := [] },
    regFile := none, scripts := [] }

/-- The next poll, after the script's own late `done` write. -/
def c7InB : MergeIn :=
  { jobId := "job-7", nowIso := "2025-01-01T00:00:35Z", modeHint := none,
    stores :=
      { job := [("status.json", { parse := some c7ErrDoc, mtime := 30 }),
                ("script_status.json", { parse := some c7ScriptDoc, mtime := 35 })],
        cwd := [] },
    regFile := none, scripts := [] }

/-- C7 (counterexample): after the watcher's timeout writes phase
`error` (exactly the document `qrTimeoutStep` produces over a `running`
status), a late script write of `script_status.json` with phase `done`
makes the next poll report `done` — a regression out of the terminal
`error` state, forbidden by the claimed ordering. -/
theorem c7_counterexample :
    dget (readJobStatus c7InA).status "phase" = some (.str "error") ∧
    dget (readJobStatus c7InB).status "phase" = some (.str "done") ∧
    phaseStepOk "error" "done" = false ∧
    qrTimeoutStep (some (some (.obj [("phase", .str "running"), ("mode", .str "qr")]))) =
      some c7ErrDoc :=
  ⟨rfl, rfl, rfl, rfl⟩

theorem dget_overlayDoc_eq (st : List (String × Json)) (e : Option FileEntry) (k : String) :
    dget (overlayDoc st e) k =
      match docField e k with
      | some v => some v
      | none => dget st k := by
  cases e with
  | none => rfl
  | some f =>
    cases hp : f.parse with
    | none => simp [overlayDoc, docField, hp]
    | some j =>
      cases hj : (if truthy j then j else Json.obj []) with
      | obj kvs => simp [overlayDoc, docField, hp, hj, dget_dupdate]
      | null => simp [overlayDoc, docField, hp, hj]
      | bool b => simp [overlayDoc, docField, hp, hj]
      | num n => simp [overlayDoc, docField, hp, hj]
      | str s => simp [overlayDoc, docField, hp, hj]
      | arr l => simp [overlayDoc, docField, hp, hj]

/-- C7 (amended): the merge does not enforce any ordering — the merged
phase of every poll is simply the script status document's phase when
that document supplies one, else the orchestrator status document's
phase, else the seeded `queued`; so successive polls regress whenever
the script document lags or overrides the orchestrator's (as in the
timeout-then-late-done counterexample). -/
theorem c7_amended (inp : MergeIn) :
    dget (readJobStatus inp).status "phase" =
      some ((docField (getFile inp.stores.job "script_status.json") "phase").getD
        ((docField (getFile inp.stores.job "status.json") "phase").getD (.str "queued"))) := by
  rw [readJobStatus_status_eq,
    dget_autoRegisterStep_ne _ _ _ _ (by decide),
    dget_sanitizeStep_ne _ _ _ (by decide),
    dget_qrFallbackStep_ne _ _ _ _ (by decide),
    dget_mergeResultStep_ne _ _ _ _ (by decide),
    dget_overlayDoc_eq, dget_overlayDoc_eq]
  cases hs : docField (getFile inp.stores.job "script_status.json") "phase" with
  | some v => rfl
  | none =>
    cases ho : docField (getFile inp.stores.job "status.json") "phase" with
    | some w => rfl
    | none => rfl

/-! ## C6: stale result files never finalize the job -/

theorem qrIter_no_finalize_of_stale (startTs : Int) (p : Bool) (snap : QrSnap)
    (hst : ∀ c, candidateOf snap = some c → c.mtime < startTs) :
    qrIter startTs p snap = .stop ∨
      qrIter startTs p snap =
        .repoll (p || optIsStr (scriptPhaseOf snap.scriptStatus) "detected") := by
  unfold qrIter
  by_cases hsp : (optIsStr (scriptPhaseOf snap.scriptStatus) "done" ||
      optIsStr (scriptPhaseOf snap.scriptStatus) "error") = true
  · left
    simp [hsp]
  · right
    cases hc : candidateOf snap with
    | none => simp [hsp, hc]
    | some c =>
      have hlt := hst c hc
      simp [hsp, hc, hlt]

theorem qrWatch_no_finalize_of_stale (startTs : Int) (snaps : List QrSnap)
    (hstale : ∀ snap ∈ snaps, ∀ c, candidateOf snap = some c → c.mtime < startTs) :
    ∀ p atDeadline, (qrWatch startTs p snaps atDeadline).isFinalized = false := by
  induction snaps with
  | nil =>
    intro p ad
    rfl
  | cons snap rest ih =>
    intro p ad
    have h1 := qrIter_no_finalize_of_stale startTs p snap
      (fun c hc => hstale snap (List.mem_cons_self _ _) c hc)
    rcases h1 with h1 | h1
    · unfold qrWatch
      rw [h1]
      rfl
    · unfold qrWatch
      rw [h1]
      exact ih (fun s hs c hc => hstale s (List.mem_cons_of_mem _ hs) c hc) _ _

/-- C6 (confirmed): a candidate result file whose modification time
predates the watcher's start never finalizes the job — every iteration
that sees only stale candidates either stops on a script-written final
status or re-polls, and a whole run over stale snapshots never reaches
the `finalized` outcome (it times out or is stopped by the script). -/
theorem c6_stale_never_finalizes (startTs : Int) (pub : Bool) (snaps : List QrSnap)
    (atDeadline : Option (Option Json))
    (hstale : ∀ snap ∈ snaps, ∀ c, candidateOf snap = some c → c.mtime < startTs) :
    (qrWatch startTs pub snaps atDeadline).isFinalized = false ∧
    (∀ snap ∈ snaps, ∀ p, qrIter startTs p snap = .stop ∨
      qrIter startTs p snap =
        .repoll (p || optIsStr (scriptPhaseOf snap.scriptStatus) "detected")) := by
  constructor
  · exact qrWatch_no_finalize_of_stale startTs snaps hstale pub atDeadline
  · intro snap hs pv
    exact qrIter_no_finalize_of_stale startTs pv snap (fun c hc => hstale snap hs c hc)

/-- A stale leftover result file (modified before the watcher start). -/
def c6Result : ResultFile :=
  { mtime := 5, size1 := 12, size2 := 12, parse := some (.obj [("uuid", .str "old")]) }

/-- A snapshot holding only the stale leftover result file. -/
def c6Snap : QrSnap :=
  { scriptStatus := none, resultJob := some c6Result,
    resultCwd := none, refJob := none, refCwd := none, statusFile := none }

/-- C6 witness: a watcher started at time 100 over a single snapshot
whose candidate has mtime 5 never finalizes. -/
theorem c6_stale_never_finalizes_witness :
    (qrWatch 100 false [c6Snap] none).isFinalized = false := by
  refine (c6_stale_never_finalizes 100 false [c6Snap] none ?_).1
  intro snap hs c hc
  rw [List.mem_singleton] at hs
  subst hs
  have hc2 : some c6Result = some c := hc
  injection hc2 with h3
  rw [← h3]
  decide

/-! ## C2: QR verification decision -/

theorem qrFinalize_verified (snap : QrSnap) (pub : Bool) (c : ResultFile) (d : String)
    (w : Json) (hfin : qrFinalize snap pub c d = .finalized w) :
    jdataField w "verified" =
      some (.bool (expectedOf snap ≠ "" && d ≠ "" && expectedOf snap = d)) := by
  simp only [qrFinalize] at hfin
  split at hfin
  · next cur =>
    split at hfin
    · next dkvs hdk =>
      injection hfin with hw
      subst hw
      simp only [jdataField, getDataJ, dget_dset_self, dget_dupdate]
      rfl
    · exact absurd hfin (by simp)
  · exact absurd hfin (by simp)

/-- C2 (confirmed): whenever a QR watcher iteration finalizes the job
from a candidate result file, the written `data.verified` is exactly
`expected ≠ '' AND detected ≠ '' AND expected = detected` — true
exactly when both the result file's and the reference file's uuid are
non-empty and equal; when no reference file exists the expected value
is empty, so `verified` is false. -/
theorem c2_qr_verified (startTs : Int) (pub : Bool) (snap : QrSnap) (w : Json)
    (c : ResultFile) (d : String)
    (hfin : qrIter startTs pub snap = .finalized w)
    (hc : candidateOf snap = some c)
    (hd : detectedOf c = some d) :
    jdataField w "verified" =
      some (.bool (expectedOf snap ≠ "" && d ≠ "" && expectedOf snap = d)) ∧
    (snap.refJob = none → snap.refCwd = none → expectedOf snap = "") := by
  constructor
  · simp only [qrIter] at hfin
    split at hfin
    · exact absurd hfin (by simp)
    · rw [hc] at hfin
      split at hfin
      · exact absurd hfin (by simp)
      · next c2 heq =>
        injection heq with he
        subst he
        split at hfin
        · exact absurd hfin (by simp)
        · split at hfin
          · exact absurd hfin (by simp)
          · split at hfin
            · exact absurd hfin (by simp)
            · next d2 heqd =>
              rw [hd] at heqd
              injection heqd with he2
              subst he2
              exact qrFinalize_verified snap _ c d w hfin
  · intro h1 h2
    simp [expectedOf, h1, h2]

/-- A fresh, stable candidate result file carrying `uuid = "abc-123"`. -/
def c2Result : ResultFile :=
  { mtime := 10, size1 := 44, size2 := 44, parse := some (.obj [("uuid", .str "abc-123")]) }

/-- The snapshot of a matching QR detection: fresh stable result file
and a job-scoped reference with the same uuid. -/
def c2Snap : QrSnap :=
  { scriptStatus := none, resultJob := some c2Result, resultCwd := none,
    refJob := some (some (.obj [("uuid", .str "abc-123")])),
    refCwd := none, statusFile := none }

/-- C2 witness: the theorem applied to the matching-detection snapshot;
the finalized status carries `verified = true`. -/
theorem c2_qr_verified_witness :
    jdataField
      (.obj [("phase", .str "done"), ("mode", .str "qr"),
        ("data", .obj [("uuid", .str "abc-123"), ("expected_uuid", .str "abc-123"),
          ("verified", .bool true), ("timestamp", .str "10Z")])])
      "verified" = some (.bool true) := by
  have h := (c2_qr_verified 0 false c2Snap
    (.obj [("phase", .str "done"), ("mode", .str "qr"),
      ("data", .obj [("uuid", .str "abc-123"), ("expected_uuid", .str "abc-123"),
        ("verified", .bool true), ("timestamp", .str "10Z")])])
    c2Result "abc-123" rfl rfl rfl).1
  exact h

/-! ## C5: registry write-once -/

theorem truthy_obj_dset (d : List (String × Json)) (k : String) (v : Json) :
    truthy (.obj (dset d k v)) = true := by
  cases d with
  | nil => rfl
  | cons hd tl =>
    simp only [dset]
    split
    · rfl
    · rfl

theorem loadRegistry_obj_truthy (kvs : List (String × Json))
    (ht : truthy (.obj kvs) = true) :
    loadRegistry (some (.obj kvs)) =
      dsetdefault (dsetdefault kvs "gesture" (.obj [])) "object" (.obj []) := by
  rw [loadRegistry_some_eq, if_pos ht]

theorem append_ne_empty_right (a b : String) (hb : b ≠ "") : a ++ b ≠ "" := by
  intro h
  apply hb
  cases a with
  | mk la =>
    cases b with
    | mk lb =>
      have h2 : String.mk (la ++ lb) = String.mk [] := h
      injection h2 with h3
      have h4 := (List.append_eq_nil.mp h3).2
      rw [h4]

theorem sfx_ne_empty (mode : String) :
    (if mode = "gesture" then "_gesture.py" else "_object.py") ≠ "" := by
  by_cases h : mode = "gesture"
  · rw [if_pos h]
    decide
  · rw [if_neg h]
    decide

theorem registerRunner_success (regFile : Option Json) (scripts : List (String × String))
    (mode dn : String) (src : Option String) (t : String)
    (h1 : (registerRunner regFile scripts mode dn src).1 = some t) :
    t = slugify dn ++ (if mode = "gesture" then "_gesture.py" else "_object.py") ∧
    ∃ mkvs,
      dget (dsetdefault (loadRegistry regFile) mode (.obj [])) mode = some (.obj mkvs) ∧
      (registerRunner regFile scripts mode dn src).2.1 =
        some (.obj (dset (dsetdefault (loadRegistry regFile) mode (.obj []))
          mode (.obj (dset mkvs dn (.str t))))) := by
  by_cases hg : (mode ≠ "gesture" && mode ≠ "object") = true
  · exfalso
    simp only [registerRunner, if_pos hg] at h1
    exact absurd h1 (by simp)
  · by_cases hd0 : dn = ""
    · exfalso
      simp only [registerRunner, if_neg hg, if_pos hd0] at h1
      exact absurd h1 (by simp)
    · cases hm : dget (dsetdefault (loadRegistry regFile) mode (.obj [])) mode with
      | none =>
        exfalso
        simp only [registerRunner, if_neg hg, if_neg hd0, hm] at h1
        exact absurd h1 (by simp)
      | some mv =>
        cases mv with
        | obj mkvs =>
          have hfst : (registerRunner regFile scripts mode dn src).1 =
              some (slugify dn ++
                (if mode = "gesture" then "_gesture.py" else "_object.py")) := by
            simp only [registerRunner, if_neg hg, if_neg hd0, hm]
          have hsnd : (registerRunner regFile scripts mode dn src).2.1 =
              some (.obj (dset (dsetdefault (loadRegistry regFile) mode (.obj []))
                mode (.obj (dset mkvs dn (.str (slugify dn ++
                  (if mode = "gesture" then "_gesture.py" else "_object.py"))))))) := by
            simp only [registerRunner, if_neg hg, if_neg hd0, hm]
          rw [hfst] at h1
          injection h1 with h1e
          refine ⟨h1e.symm, mkvs, rfl, ?_⟩
          rw [hsnd, h1e]
        | null =>
          exfalso
          simp only [registerRunner, if_neg hg, if_neg hd0, hm] at h1
          exact absurd h1 (by simp)
        | bool b =>
          exfalso
          simp only [registerRunner, if_neg hg, if_neg hd0, hm] at h1
          exact absurd h1 (by simp)
        | num n =>
          exfalso
          simp only [registerRunner, if_neg hg, if_neg hd0, hm] at h1
          exact absurd h1 (by simp)
        | str s =>
          exfalso
          simp only [registerRunner, if_neg hg, if_neg hd0, hm] at h1
          exact absurd h1 (by simp)
        | arr l =>
          exfalso
          simp only [registerRunner, if_neg hg, if_neg hd0, hm] at h1
          exact absurd h1 (by simp)

/-- C5 (confirmed): after a first registration attempt for
`(mode, displayName)` succeeds (storing target `t`), a second attempt
for the same pair — with any other source script and any state of the
script store — is a no-op: the registry file is unchanged, no copy is
performed, and the stored filename is still the one chosen on the first
registration, `slugify displayName` plus the mode suffix. -/
theorem c5_registry_write_once (regFile : Option Json)
    (scripts scripts2 : List (String × String)) (mode dn : String)
    (src src2 : Option String) (t : String)
    (hmode : mode = "gesture" ∨ mode = "object") (hdn : dn ≠ "")
    (h1 : (attemptRegister regFile scripts mode dn src).target = some t) :
    attemptRegister (attemptRegister regFile scripts mode dn src).regFile
        scripts2 mode dn src2 =
      ⟨(attemptRegister regFile scripts mode dn src).regFile, scripts2, none⟩ ∧
    t = slugify dn ++ (if mode = "gesture" then "_gesture.py" else "_object.py") := by
  have hbranch : (attemptRegister regFile scripts mode dn src).regFile =
      (registerRunner regFile scripts mode dn src).2.1 ∧
      (registerRunner regFile scripts mode dn src).1 = some t := by
    cases hl : regLookup (loadRegistry regFile) mode dn with
    | none =>
      exfalso
      simp only [attemptRegister, hl] at h1
      exact absurd h1 (by simp)
    | some already =>
      by_cases ht : truthy already = true
      · exfalso
        simp only [attemptRegister, hl, if_pos ht] at h1
        exact absurd h1 (by simp)
      · constructor
        · simp only [attemptRegister, hl, if_neg ht]
        · have heqt : (attemptRegister regFile scripts mode dn src).target =
              (registerRunner regFile scripts mode dn src).1 := by
            simp only [attemptRegister, hl, if_neg ht]
          rw [← heqt]
          exact h1
  obtain ⟨hAreg, h1r⟩ := hbranch
  obtain ⟨ht2, mkvs, hm, hsnd⟩ := registerRunner_success regFile scripts mode dn src t h1r
  have htne : t ≠ "" := by
    rw [ht2]
    exact append_ne_empty_right _ _ (sfx_ne_empty mode)
  have hAreg2 : (attemptRegister regFile scripts mode dn src).regFile =
      some (.obj (dset (dsetdefault (loadRegistry regFile) mode (.obj []))
        mode (.obj (dset mkvs dn (.str t))))) := by
    rw [hAreg, hsnd]
  set reg2 := dset (dsetdefault (loadRegistry regFile) mode (.obj []))
    mode (.obj (dset mkvs dn (.str t))) with hreg2def
  have htr2 : truthy (.obj reg2) = true := truthy_obj_dset _ _ _
  have hload2 : loadRegistry (some (.obj reg2)) =
      dsetdefault (dsetdefault reg2 "gesture" (.obj [])) "object" (.obj []) :=
    loadRegistry_obj_truthy _ htr2
  have hdget2 : dget reg2 mode = some (.obj (dset mkvs dn (.str t))) :=
    dget_dset_self _ _ _
  have hdget3 : dget (dsetdefault reg2 "gesture" (.obj [])) mode =
      some (.obj (dset mkvs dn (.str t))) := by
    rw [dget_dsetdefault_of_isSome _ _ _ _ (by rw [hdget2]; rfl)]
    exact hdget2
  have hdget4 : dget (dsetdefault (dsetdefault reg2 "gesture" (.obj []))
      "object" (.obj [])) mode = some (.obj (dset mkvs dn (.str t))) := by
    rw [dget_dsetdefault_of_isSome _ _ _ _ (by rw [hdget3]; rfl)]
    exact hdget3
  have hlook2 : regLookup (loadRegistry (some (.obj reg2))) mode dn = some (.str t) := by
    rw [hload2]
    unfold regLookup
    rw [hdget4]
    show some (jget (dset mkvs dn (.str t)) dn) = some (.str t)
    unfold jget
    rw [dget_dset_self]
    rfl
  have htrt : truthy (.str t) = true := by
    simp [truthy, htne]
  refine ⟨?_, ht2⟩
  rw [hAreg2]
  simp only [attemptRegister, hlook2, if_pos htrt]

/-- C5 witness: registering `("gesture", "Thumbs Up")` twice with two
different source scripts — the second attempt is a no-op and maps the
name to the filename chosen on the first registration. -/
theorem c5_registry_write_once_witness :
    attemptRegister
        (attemptRegister none [("runner_a.py", "A")] "gesture" "Thumbs Up"
          (some "runner_a.py")).regFile
        [("runner_b.py", "B")] "gesture" "Thumbs Up" (some "runner_b.py") =
      ⟨(attemptRegister none [("runner_a.py", "A")] "gesture" "Thumbs Up"
          (some "runner_a.py")).regFile, [("runner_b.py", "B")], none⟩ ∧
    "thumbs_up_gesture.py" = slugify "Thumbs Up" ++
      (if "gesture" = "gesture" then "_gesture.py" else "_object.py") := by
  exact c5_registry_write_once none [("runner_a.py", "A")] [("runner_b.py", "B")]
    "gesture" "Thumbs Up" (some "runner_a.py") (some "runner_b.py")
    "thumbs_up_gesture.py" (Or.inl rfl) (by decide) rfl
